import Mathlib

/-!
Shallow embedding of the guild-state synchronization core of the
GOTTA_BIKE virtual-team bot (files `src/main.py`, `src/cogs/role_sync.py`,
`src/cogs/member_sync.py`).  Pure decision logic is translated to Lean
functions; the HTTP boundary is modelled by an `HttpOutcome` value that the
environment supplies for the request the code builds; Python exceptions
raised by the HTTP client are modelled with `Except PyExn`.  Event-loop
concurrency (several handler tasks suspended at their `await`) is modelled
as interleavings of per-task step sequences, and the periodic-timer
lifecycle as a small labelled transition system.
-/

namespace RaceReady

/-- RoleSnapshot: a `discord.Role` as observed by the cog, restricted to the
fields the code reads (`role_sync.py` lines 56-66 and 196-199).  In the
library a role carries its guild, so the guild id is a field here. -/
structure RoleSnapshot where
  id : Nat
  guildId : Nat
  name : String
  color : Nat
  position : Nat
  managed : Bool
  mentionable : Bool
  deriving DecidableEq, Repr

/-- MemberSnapshot: a `discord.Member` restricted to the fields the code
reads (`role_sync.py` line 111, `member_sync.py` lines 54-68).  The library
compares `discord.Role` objects by their id alone (its equality mixin), so a
member's role set is carried as the list of role ids. -/
structure MemberSnapshot where
  id : Nat
  guildId : Nat
  username : String
  displayName : String
  nick : Option String
  avatarKey : Option String
  roleIds : List Nat
  joinedAt : Option String
  isBot : Bool
  deriving DecidableEq, Repr

/-- Guild: a `discord.Guild` restricted to what the two sync cogs read. -/
structure Guild where
  id : Nat
  roles : List RoleSnapshot
  members : List MemberSnapshot
  deriving DecidableEq, Repr

/-- Cog configuration captured in `RoleSync.__init__` / `MemberSync.__init__`
(`role_sync.py` lines 21-24, `member_sync.py` lines 21-24): the API base url,
the API key, the configured guild id as the raw environment string, and the
bot user's id (used as default acting user in headers).  Note there is no
`in_progress` field: neither cog stores any sync-in-flight state. -/
structure Cog where
  apiUrl : String
  apiKey : String
  guildId : String
  botUserId : Nat
  deriving DecidableEq, Repr

/-- Headers built by `_get_headers` (`role_sync.py` lines 30-44,
`member_sync.py` lines 26-40). -/
structure Headers where
  xApiKey : String
  xGuildId : String
  xDiscordUserId : String
  deriving DecidableEq, Repr

/-- Translation of `_get_headers(user_id)`: the acting user defaults to the
bot user when none is given. -/
def Cog.getHeaders (cog : Cog) (userId : Option String) : Headers :=
  ⟨cog.apiKey, cog.guildId, userId.getD (toString cog.botUserId)⟩

/-- Wire form of one role in the `sync_guild_roles` payload
(`role_sync.py` lines 56-66). -/
structure RoleWire where
  id : String
  name : String
  color : Nat
  position : Nat
  managed : Bool
  mentionable : Bool
  deriving DecidableEq, Repr

/-- Wire form of one member in the `sync_guild_members` payload
(`member_sync.py` lines 54-68). -/
structure MemberWire where
  discordId : String
  username : String
  displayName : String
  nickname : String
  avatarHash : String
  roles : List String
  joinedAt : Option String
  isBot : Bool
  deriving DecidableEq, Repr

/-- Body of an outbound POST: one constructor per endpoint payload shape. -/
inductive Payload
  | roles (roles : List RoleWire)
  | roleIds (ids : List String)
  | members (ms : List MemberWire)
  deriving DecidableEq, Repr

/-- An outbound HTTP request exactly as the code hands it to
`httpx.AsyncClient.post`: url, JSON body, headers and the fixed `timeout=`
keyword (seconds; the code passes the literals 30.0, 10.0 and 60.0). -/
structure HttpRequest where
  url : String
  payload : Payload
  headers : Headers
  timeoutSeconds : Nat
  deriving DecidableEq, Repr

/-- Exceptions `httpx.AsyncClient.post` can raise: `httpx.TimeoutException`
(a subclass of `httpx.RequestError`) and any other `httpx.RequestError`.
Response bodies are modelled already parsed, per the wire contract. -/
inductive PyExn
  | timeoutException
  | requestError (detail : String)
  deriving DecidableEq, Repr

/-- Environment's answer to one outbound request: a timeout, a transport
error, or a response with a status code, parsed JSON body and raw text. -/
inductive HttpOutcome (β : Type)
  | timeout
  | requestError (detail : String)
  | response (statusCode : Nat) (body : β) (text : String)
  deriving DecidableEq, Repr

/-- Result of `await client.post(...)` inside the `try` block: a timeout or
transport failure raises, otherwise the response is returned. -/
def HttpOutcome.post {β : Type} : HttpOutcome β → Except PyExn (Nat × β × String)
  | .timeout => .error .timeoutException
  | .requestError d => .error (.requestError d)
  | .response s b t => .ok (s, b, t)

/-- Severity of a `logfire` call. -/
inductive LogLevel
  | info
  | error
  deriving DecidableEq, Repr

/-- One observability record emitted via `logfire.info` / `logfire.error`. -/
structure LogEvent where
  level : LogLevel
  message : String
  deriving DecidableEq, Repr

/-- Parsed 200-body of `POST /sync_guild_roles`. -/
structure RolesSyncResult where
  created : Nat
  updated : Nat
  deleted : Nat
  total : Nat
  deriving DecidableEq, Repr

/-- Parsed 200-body of `POST /sync_user_roles/{id}`: the synced count and the
`roles` mapping of role id to role name. -/
structure UserRolesResult where
  rolesSynced : Nat
  roles : List (String × String)
  deriving DecidableEq, Repr

/-- Parsed 200-body of `POST /sync_guild_members`. -/
structure MembersSyncResult where
  created : Nat
  updated : Nat
  rejoined : Nat
  leftCount : Nat
  linked : Nat
  totalActive : Nat
  deriving DecidableEq, Repr

namespace RoleSync

/-- Translation of the `roles_data` comprehension in `_sync_guild_roles`
(`role_sync.py` lines 56-66). -/
def roles_data (guild : Guild) : List RoleWire :=
  guild.roles.map fun r =>
    ⟨toString r.id, r.name, r.color, r.position, r.managed, r.mentionable⟩

/-- Request issued by `_sync_guild_roles` (`role_sync.py` lines 69-75):
full current role list to `/sync_guild_roles`, default headers, 30 second
timeout. -/
def sync_guild_roles_request (cog : Cog) (guild : Guild) : HttpRequest :=
  ⟨cog.apiUrl ++ "/sync_guild_roles", .roles (roles_data guild),
    cog.getHeaders none, 30⟩

/-- Translation of `_sync_guild_roles` (`role_sync.py` lines 46-99) after the
request is issued: status dispatch and the two `except` clauses.  The outer
`Except` is the Python exception channel; `.ok` means the function returned
normally with the given result and log records. -/
def sync_guild_roles (cog : Cog) (guild : Guild)
    (outcome : HttpOutcome RolesSyncResult) :
    Except PyExn (Option RolesSyncResult × List LogEvent) :=
  match (sync_guild_roles_request cog guild, outcome.post) with
  | (_, .ok (status, body, _)) =>
      if status = 200 then
        .ok (some body, [⟨.info, "Synced guild roles"⟩])
      else
        .ok (none, [⟨.error, "Failed to sync guild roles"⟩])
  | (_, .error .timeoutException) =>
      .ok (none, [⟨.error, "Guild role sync timed out"⟩])
  | (_, .error (.requestError _)) =>
      .ok (none, [⟨.error, "Guild role sync request failed"⟩])

/-- Request issued by `_sync_user_roles` (`role_sync.py` lines 113-120):
the member's role-id list to `/sync_user_roles/{member.id}`, headers acting
as the member, 10 second timeout. -/
def sync_user_roles_request (cog : Cog) (member : MemberSnapshot) : HttpRequest :=
  ⟨cog.apiUrl ++ "/sync_user_roles/" ++ toString member.id,
    .roleIds (member.roleIds.map toString),
    cog.getHeaders (some (toString member.id)), 10⟩

/-- Translation of `_sync_user_roles` (`role_sync.py` lines 101-147).  The
404 branch (line 131-133) returns `None` with no log record; every other
non-200 outcome logs an error and returns `None`. -/
def sync_user_roles (cog : Cog) (member : MemberSnapshot)
    (outcome : HttpOutcome UserRolesResult) :
    Except PyExn (Option UserRolesResult × List LogEvent) :=
  match (sync_user_roles_request cog member, outcome.post) with
  | (_, .ok (status, body, _)) =>
      if status = 200 then
        .ok (some body, [⟨.info, "Synced user roles"⟩])
      else if status = 404 then
        .ok (none, [])
      else
        .ok (none, [⟨.error, "Failed to sync user roles"⟩])
  | (_, .error .timeoutException) =>
      .ok (none, [⟨.error, "User role sync timed out"⟩])
  | (_, .error (.requestError _)) =>
      .ok (none, [⟨.error, "User role sync request failed"⟩])

end RoleSync

namespace MemberSync

/-- Translation of the `members_data` loop in `_sync_guild_members`
(`member_sync.py` lines 53-68): `nickname` and `avatar_hash` default to the
empty string when absent. -/
def members_data (guild : Guild) : List MemberWire :=
  guild.members.map fun m =>
    ⟨toString m.id, m.username, m.displayName, m.nick.getD "",
      m.avatarKey.getD "", m.roleIds.map toString, m.joinedAt, m.isBot⟩

/-- Request issued by `_sync_guild_members` (`member_sync.py` lines 77-83):
full member list to `/sync_guild_members`, headers acting as the triggering
user, 60 second timeout. -/
def sync_guild_members_request (cog : Cog) (guild : Guild) (userId : String) :
    HttpRequest :=
  ⟨cog.apiUrl ++ "/sync_guild_members", .members (members_data guild),
    cog.getHeaders (some userId), 60⟩

/-- Translation of `_sync_guild_members` (`member_sync.py` lines 42-110);
an info record is logged before the `try` block (lines 70-74). -/
def sync_guild_members (cog : Cog) (guild : Guild) (userId : String)
    (outcome : HttpOutcome MembersSyncResult) :
    Except PyExn (Option MembersSyncResult × List LogEvent) :=
  match (sync_guild_members_request cog guild userId, outcome.post) with
  | (_, .ok (status, body, _)) =>
      if status = 200 then
        .ok (some body,
          [⟨.info, "Syncing guild members"⟩, ⟨.info, "Synced guild members"⟩])
      else
        .ok (none,
          [⟨.info, "Syncing guild members"⟩, ⟨.error, "Failed to sync guild members"⟩])
  | (_, .error .timeoutException) =>
      .ok (none,
        [⟨.info, "Syncing guild members"⟩, ⟨.error, "Guild member sync timed out"⟩])
  | (_, .error (.requestError _)) =>
      .ok (none,
        [⟨.info, "Syncing guild members"⟩, ⟨.error, "Guild member sync request failed"⟩])

end MemberSync

/-- A sync operation the decision layer decides to run (the `await
self._sync_guild_roles(...)` / `await self._sync_user_roles(...)` sites). -/
inductive SyncRequest
  | fullGuildRoleSync (guildId : Nat)
  | userRoleSync (memberId : Nat)
  deriving DecidableEq, Repr

/-- Observable effect of one event handler before the HTTP boundary: which
sync calls it initiates and which log records it emits on the way. -/
structure HandlerEffect where
  calls : List SyncRequest
  logs : List LogEvent
  deriving DecidableEq, Repr

namespace RoleSync

/-- Translation of the `on_guild_role_create` listener (`role_sync.py`
lines 163-173): guard on the configured guild id, then log and full sync. -/
def on_guild_role_create (cog : Cog) (role : RoleSnapshot) : HandlerEffect :=
  if toString role.guildId = cog.guildId then
    ⟨[.fullGuildRoleSync role.guildId], [⟨.info, "Role created, syncing"⟩]⟩
  else ⟨[], []⟩

/-- Translation of the `on_guild_role_delete` listener (`role_sync.py`
lines 175-185). -/
def on_guild_role_delete (cog : Cog) (role : RoleSnapshot) : HandlerEffect :=
  if toString role.guildId = cog.guildId then
    ⟨[.fullGuildRoleSync role.guildId], [⟨.info, "Role deleted, syncing"⟩]⟩
  else ⟨[], []⟩

/-- Translation of the `on_guild_role_update` listener (`role_sync.py`
lines 187-201): early return on a foreign guild, then sync only if `name`,
`color` or `position` changed. -/
def on_guild_role_update (cog : Cog) (before after : RoleSnapshot) :
    HandlerEffect :=
  if toString after.guildId ≠ cog.guildId then ⟨[], []⟩
  else if before.name ≠ after.name ∨ before.color ≠ after.color ∨
      before.position ≠ after.position then
    ⟨[.fullGuildRoleSync after.guildId], [⟨.info, "Role updated, syncing"⟩]⟩
  else ⟨[], []⟩

/-- Translation of the `on_member_update` listener (`role_sync.py`
lines 203-218): early return on a foreign guild, then sync the single member
iff `set(before.roles) != set(after.roles)`.  Python's `set` of roles is a
set of role ids because the library compares roles by id, so the comparison
is the `Finset` of role ids. -/
def on_member_update (cog : Cog) (before after : MemberSnapshot) :
    HandlerEffect :=
  if toString after.guildId ≠ cog.guildId then ⟨[], []⟩
  else if before.roleIds.toFinset ≠ after.roleIds.toFinset then
    ⟨[.userRoleSync after.id], [⟨.info, "Member roles changed, syncing"⟩]⟩
  else ⟨[], []⟩

/-- Translation of the `for guild in self.bot.guilds: if str(guild.id) ==
self.guild_id: ... break` loop that appears verbatim in both `on_ready`
(`role_sync.py` lines 154-157) and `periodic_role_sync` (lines 223-227):
the first matching guild is synced and the loop stops; no match means no
call. -/
def guildLoop (cog : Cog) : List Guild → List SyncRequest
  | [] => []
  | g :: gs =>
      if toString g.id = cog.guildId then [.fullGuildRoleSync g.id]
      else guildLoop cog gs

/-- Full-guild sync calls issued by the `on_ready` listener (`role_sync.py`
lines 149-161); the timer-start half of `on_ready` is modelled by the
scheduler transition system below. -/
def on_ready_calls (cog : Cog) (guilds : List Guild) : List SyncRequest :=
  guildLoop cog guilds

/-- Full-guild sync calls issued by one `periodic_role_sync` tick
(`role_sync.py` lines 220-227). -/
def periodic_role_sync_calls (cog : Cog) (guilds : List Guild) :
    List SyncRequest :=
  guildLoop cog guilds

/-- Translation of `sync_my_roles_command` (`role_sync.py` lines 263-289):
context guards, then `_sync_user_roles` on the author; a truthy result gets
the success message, everything else (failure or 404) one generic message.
Returns the responded message and the logs, through the exception channel
of the inner call. -/
def sync_my_roles_command (cog : Cog) (ctxGuild : Option Guild)
    (authorIsMember : Bool) (author : MemberSnapshot)
    (outcome : HttpOutcome UserRolesResult) :
    Except PyExn (String × List LogEvent) :=
  match ctxGuild with
  | none => .ok ("This command can only be used in a server.", [])
  | some g =>
      if authorIsMember = false then
        .ok ("This command can only be used in a server.", [])
      else if toString g.id ≠ cog.guildId then
        .ok ("This command can only be used in the configured guild.", [])
      else
        match sync_user_roles cog author outcome with
        | .error e => .error e
        | .ok (some r, logs) =>
            .ok ("Your roles have been synced!\nRoles: " ++
              String.intercalate ", " ((r.roles.map (fun p => p.2)).take 10) ++
              (if 10 < (r.roles.map (fun p => p.2)).length then "..." else ""),
              logs)
        | .ok (none, logs) =>
            .ok ("Could not sync your roles. Make sure you have an account on the team website.",
              logs)

end RoleSync

namespace Main

/-- Translation of the `COGS` list in `main.py` lines 27-33: the extensions
loaded at startup. -/
def COGS : List String :=
  ["src.cogs.about", "src.cogs.diagnostics", "src.cogs.team_links",
    "src.cogs.role_sync", "src.cogs.zwiftpower"]

/-- Slash commands each loadable extension registers, read off the
`@discord.slash_command` declarations of each cog module: `about.py` line 13,
`diagnostics.py` line 20, `team_links.py` line 18, `role_sync.py` lines 234
and 263, `zwiftpower.py` lines 53, 112, 171 and 441, `member_sync.py`
line 112. -/
def cogSlashCommands : String → List String
  | "src.cogs.about" => ["help"]
  | "src.cogs.diagnostics" => ["diag"]
  | "src.cogs.team_links" => ["team_links"]
  | "src.cogs.role_sync" => ["sync_roles", "sync_my_roles"]
  | "src.cogs.zwiftpower" =>
      ["update_zp_team", "update_zp_results", "my_profile", "teammate_profile"]
  | "src.cogs.member_sync" => ["sync_members"]
  | _ => []

/-- Commands registered at runtime: those of the loaded extensions. -/
def registeredCommands : List String :=
  (COGS.map cogSlashCommands).flatten

end Main

namespace Loop

/-! Event-loop interleaving model for full-guild syncs.  The bot's library
dispatches every event listener, every command handler and every timer tick
as its own task on one asyncio loop, so several of them can be suspended at
an `await` at once.  A task running a full-guild sync executes
`await self._sync_guild_roles(guild)` (`role_sync.py` lines 149-161,
163-173, 220-227, 234-261): it issues the POST to `/sync_guild_roles`
(line 70, the suspension point) and resumes when the response, timeout or
error arrives (lines 77-99).  `_sync_guild_roles` consults no shared state
before posting — the cog object holds only `bot`, `api_url`, `api_key` and
`guild_id` (lines 21-24) — so nothing constrains how two such tasks
interleave beyond each task's own program order. -/

/-- Atomic steps of one full-guild sync task: issue the remote call, then
resume when its outcome arrives. -/
inductive Step
  | post
  | resume
  deriving DecidableEq, Repr

/-- Program order of one admitted full-guild sync request: exactly one POST
to `/sync_guild_roles`, then the resumption.  No guard read or flag write
appears because the source has none. -/
def fullSyncTask : List Step := [.post, .resume]

/-- Steps of task `t` in a schedule, in order. -/
def proj (t : Nat) (sched : List (Nat × Step)) : List Step :=
  (sched.filter (fun e => e.1 == t)).map (fun e => e.2)

/-- A schedule the event loop can produce for `n` admitted full-guild sync
requests: every step belongs to one of the `n` tasks and each task's steps,
in order, are exactly its program order.  Any interleaving across tasks is
allowed, because between `post` and `resume` a task is suspended and the
loop is free to run any other task. -/
def validSchedule (n : Nat) (sched : List (Nat × Step)) : Bool :=
  sched.all (fun e => e.1 < n) &&
    (List.range n).all (fun t => proj t sched == fullSyncTask)

/-- Task `t` has an outstanding remote call after the prefix `pre`. -/
def inFlight (t : Nat) (pre : List (Nat × Step)) : Bool :=
  pre.contains (t, .post) && !(pre.contains (t, .resume))

/-- Number of simultaneously outstanding `/sync_guild_roles` calls after the
prefix `pre` of a schedule for `n` tasks. -/
def inFlightCount (n : Nat) (pre : List (Nat × Step)) : Nat :=
  ((List.range n).filter (fun t => inFlight t pre)).length

/-- Total number of POSTs to `/sync_guild_roles` a schedule performs. -/
def postCount (sched : List (Nat × Step)) : Nat :=
  (sched.filter (fun e => e.2 == Step.post)).length

end Loop

namespace Sched

/-! Labelled transition system for the periodic-timer lifecycle
(`role_sync.py` lines 26-28, 149-161, 220-232).  In-src facts translated:
`on_ready` starts `periodic_role_sync` only under the
`is_running()` guard (lines 160-161); `before_periodic_sync` awaits
`wait_until_ready()` before the first tick (lines 229-232); `cog_unload`
cancels the timer (lines 26-28).  The timer machinery itself
(`discord.ext.tasks.Loop`) is an external library, modelled from the spec:
cancellation suppresses future ticks and an in-flight iteration is not
interrupted; a tick runs only while the timer is running and the bot is
ready. -/

/-- Process state relevant to the scheduler: whether the gateway has
reported ready, how many timer tasks have been started and not cancelled,
whether a tick body is currently executing, and whether the cog was
unloaded. -/
structure State where
  ready : Bool
  timers : Nat
  inTick : Bool
  unloaded : Bool
  deriving DecidableEq, Repr

/-- State before any event: bot not ready, no timer, no tick, cog loaded. -/
def init : State := ⟨false, 0, false, false⟩

/-- Observable events: the gateway ready event (which runs the `on_ready`
listener while the cog is loaded), the start and end of one timer tick, and
the cog unload. -/
inductive Event
  | readyEvent
  | tickStart
  | tickEnd
  | unload
  deriving DecidableEq, Repr

/-- One transition; `none` means the event cannot occur in that state.
`readyEvent` marks the bot ready and, while the cog is loaded, runs the
`on_ready` start guard: the timer is started only if none is running.
`tickStart` requires a running timer, a ready bot (the `before_loop` wait)
and no tick already in progress.  `unload` cancels the timer: future ticks
lose their enabling condition, but an in-flight tick keeps its `tickEnd`. -/
def step (s : State) : Event → Option State
  | .readyEvent =>
      if s.unloaded then some s
      else some { s with ready := true, timers := if s.timers = 0 then s.timers + 1 else s.timers }
  | .tickStart =>
      if 1 ≤ s.timers ∧ s.ready = true ∧ s.inTick = false then
        some { s with inTick := true }
      else none
  | .tickEnd => if s.inTick then some { s with inTick := false } else none
  | .unload =>
      if s.unloaded then none else some { s with timers := 0, unloaded := true }

/-- Run a sequence of events from the initial state; `none` if some event
occurs when it is not enabled. -/
def run (evs : List Event) : Option State :=
  evs.foldlM step init

/-- Invariant tying the machine together: at most one timer task exists, a
timer only runs once the bot is ready, and after unload no timer remains. -/
def Inv (s : State) : Prop :=
  s.timers ≤ 1 ∧ (1 ≤ s.timers → s.ready = true) ∧
    (s.unloaded = true → s.timers = 0)

end Sched

/-! Theorems settling the claims. -/

/-- Claim C8: every remote call is bounded by its fixed timeout — 30 seconds
for the full-guild role sync, 10 seconds for the per-member role sync, and
60 seconds for the full-guild member sync. -/
theorem claim_C8_fixed_timeouts :
    ∀ (cog : Cog) (guild : Guild) (member : MemberSnapshot) (userId : String),
      (RoleSync.sync_guild_roles_request cog guild).timeoutSeconds = 30 ∧
      (RoleSync.sync_user_roles_request cog member).timeoutSeconds = 10 ∧
      (MemberSync.sync_guild_members_request cog guild userId).timeoutSeconds = 60 :=
  fun _ _ _ _ => ⟨rfl, rfl, rfl⟩

/-- Claim C9: the extensions loaded at startup are exactly about,
diagnostics, team_links, role_sync and zwiftpower; the member-sync cog is
not among them, so its `sync_members` command is never registered. -/
theorem claim_C9_member_sync_not_loaded :
    Main.COGS = ["src.cogs.about", "src.cogs.diagnostics", "src.cogs.team_links",
      "src.cogs.role_sync", "src.cogs.zwiftpower"] ∧
    "src.cogs.member_sync" ∉ Main.COGS ∧
    "sync_members" ∉ Main.registeredCommands := by
  refine ⟨rfl, ?_, ?_⟩ <;> decide

/-- Claim C5: every failure of a sync-client call (timeout, connection
error, remote rejection) is returned as a structured result; no exception
escapes any of the three sync-client functions, whatever the outcome of the
remote call. -/
theorem claim_C5_no_exception_escapes :
    ∀ (cog : Cog) (guild : Guild) (member : MemberSnapshot) (userId : String)
      (o₁ : HttpOutcome RolesSyncResult) (o₂ : HttpOutcome UserRolesResult)
      (o₃ : HttpOutcome MembersSyncResult),
      (∃ r, RoleSync.sync_guild_roles cog guild o₁ = .ok r) ∧
      (∃ r, RoleSync.sync_user_roles cog member o₂ = .ok r) ∧
      (∃ r, MemberSync.sync_guild_members cog guild userId o₃ = .ok r) := by
  intro cog guild member userId o₁ o₂ o₃
  refine ⟨?_, ?_, ?_⟩
  · cases o₁ with
    | timeout => exact ⟨_, rfl⟩
    | requestError d => exact ⟨_, rfl⟩
    | response s b t =>
        simp only [RoleSync.sync_guild_roles, HttpOutcome.post]
        split <;> exact ⟨_, rfl⟩
  · cases o₂ with
    | timeout => exact ⟨_, rfl⟩
    | requestError d => exact ⟨_, rfl⟩
    | response s b t =>
        simp only [RoleSync.sync_user_roles, HttpOutcome.post]
        split
        · exact ⟨_, rfl⟩
        · split <;> exact ⟨_, rfl⟩
  · cases o₃ with
    | timeout => exact ⟨_, rfl⟩
    | requestError d => exact ⟨_, rfl⟩
    | response s b t =>
        simp only [MemberSync.sync_guild_members, HttpOutcome.post]
        split <;> exact ⟨_, rfl⟩

/-- Claim C6: an event whose guild id differs from the configured guild id
produces no sync call and no log record, for all four listeners. -/
theorem claim_C6_scope_filter (cog : Cog) (r b a : RoleSnapshot)
    (mb ma : MemberSnapshot)
    (hr : toString r.guildId ≠ cog.guildId)
    (ha : toString a.guildId ≠ cog.guildId)
    (hm : toString ma.guildId ≠ cog.guildId) :
    RoleSync.on_guild_role_create cog r = ⟨[], []⟩ ∧
    RoleSync.on_guild_role_delete cog r = ⟨[], []⟩ ∧
    RoleSync.on_guild_role_update cog b a = ⟨[], []⟩ ∧
    RoleSync.on_member_update cog mb ma = ⟨[], []⟩ := by
  refine ⟨?_, ?_, ?_, ?_⟩
  · rw [RoleSync.on_guild_role_create, if_neg hr]
  · rw [RoleSync.on_guild_role_delete, if_neg hr]
  · rw [RoleSync.on_guild_role_update, if_pos ha]
  · rw [RoleSync.on_member_update, if_pos hm]

/-- Witness for C6 at a concrete foreign-guild event. -/
theorem claim_C6_scope_filter_witness :
    RoleSync.on_guild_role_create ⟨"u", "k", "7", 9⟩ ⟨1, 8, "A", 0, 0, false, false⟩ =
      (⟨[], []⟩ : HandlerEffect) :=
  (claim_C6_scope_filter ⟨"u", "k", "7", 9⟩ ⟨1, 8, "A", 0, 0, false, false⟩
    ⟨1, 8, "A", 0, 0, false, false⟩ ⟨1, 8, "A", 0, 0, false, false⟩
    ⟨5, 8, "u", "d", none, none, [], none, false⟩
    ⟨5, 8, "u", "d", none, none, [], none, false⟩
    (by decide) (by decide) (by decide)).1

/-- Claim C2: in the configured guild, a role update triggers a full-guild
sync exactly when `name`, `color` or `position` changed; a pair equal on
those three fields (in particular one differing only in `managed` or
`mentionable`) produces no call and no log. -/
theorem claim_C2_role_update_diff (cog : Cog) (before after : RoleSnapshot)
    (_hid : before.id = after.id)
    (hg : toString after.guildId = cog.guildId) :
    (RoleSync.on_guild_role_update cog before after).calls =
      (if before.name ≠ after.name ∨ before.color ≠ after.color ∨
          before.position ≠ after.position
        then [SyncRequest.fullGuildRoleSync after.guildId] else []) ∧
    (before.name = after.name → before.color = after.color →
      before.position = after.position →
      RoleSync.on_guild_role_update cog before after = ⟨[], []⟩) := by
  constructor
  · rw [RoleSync.on_guild_role_update, if_neg (not_not_intro hg)]
    by_cases hc : before.name ≠ after.name ∨ before.color ≠ after.color ∨
      before.position ≠ after.position
    · rw [if_pos hc, if_pos hc]
    · rw [if_neg hc, if_neg hc]
  · intro h1 h2 h3
    have hc : ¬(before.name ≠ after.name ∨ before.color ≠ after.color ∨
        before.position ≠ after.position) := by simp [h1, h2, h3]
    rw [RoleSync.on_guild_role_update, if_neg (not_not_intro hg), if_neg hc]

/-- Witness for C2: a rename triggers the full-guild sync; the hypotheses
hold at this concrete pair. -/
theorem claim_C2_role_update_diff_witness :
    (RoleSync.on_guild_role_update ⟨"u", "k", "7", 9⟩
      ⟨1, 7, "A", 0, 0, false, false⟩ ⟨1, 7, "B", 0, 0, false, false⟩).calls =
      [SyncRequest.fullGuildRoleSync 7] := by
  have h := (claim_C2_role_update_diff ⟨"u", "k", "7", 9⟩
    ⟨1, 7, "A", 0, 0, false, false⟩ ⟨1, 7, "B", 0, 0, false, false⟩
    rfl (by decide)).1
  rw [h]; decide

/-- Claim C3: in the configured guild, a member update triggers a
single-member sync exactly when the set of role ids changed (order and
duplicates irrelevant); when the role-id sets agree — in particular when
only nickname or avatar changed — no call and no log is produced. -/
theorem claim_C3_member_update_diff (cog : Cog) (before after : MemberSnapshot)
    (hg : toString after.guildId = cog.guildId) :
    (RoleSync.on_member_update cog before after).calls =
      (if before.roleIds.toFinset ≠ after.roleIds.toFinset
        then [SyncRequest.userRoleSync after.id] else []) ∧
    (before.roleIds.toFinset = after.roleIds.toFinset →
      RoleSync.on_member_update cog before after = ⟨[], []⟩) := by
  constructor
  · rw [RoleSync.on_member_update, if_neg (not_not_intro hg)]
    by_cases hc : before.roleIds.toFinset ≠ after.roleIds.toFinset
    · rw [if_pos hc, if_pos hc]
    · rw [if_neg hc, if_neg hc]
  · intro h1
    rw [RoleSync.on_member_update, if_neg (not_not_intro hg),
      if_neg (not_not_intro h1)]

/-- Witness for C3: a reordered, duplicated role list with the same id set
— together with a changed nickname — triggers nothing. -/
theorem claim_C3_member_update_diff_witness :
    RoleSync.on_member_update ⟨"u", "k", "7", 9⟩
      ⟨5, 7, "u", "d", some "old", none, [1, 2], none, false⟩
      ⟨5, 7, "u", "d", some "new", none, [2, 1, 1], none, false⟩ =
      (⟨[], []⟩ : HandlerEffect) :=
  (claim_C3_member_update_diff ⟨"u", "k", "7", 9⟩
    ⟨5, 7, "u", "d", some "old", none, [1, 2], none, false⟩
    ⟨5, 7, "u", "d", some "new", none, [2, 1, 1], none, false⟩
    (by decide)).2 (by decide)

/-- Length of the shared guild loop result: at most one sync call. -/
theorem guildLoop_length_le_one (cog : Cog) (guilds : List Guild) :
    (RoleSync.guildLoop cog guilds).length ≤ 1 := by
  induction guilds with
  | nil => simp [RoleSync.guildLoop]
  | cons g gs ih =>
      simp only [RoleSync.guildLoop]
      split
      · simp
      · exact ih

/-- The shared guild loop makes no call when no guild matches. -/
theorem guildLoop_eq_nil_of_no_match (cog : Cog) (guilds : List Guild)
    (h : ∀ g ∈ guilds, toString g.id ≠ cog.guildId) :
    RoleSync.guildLoop cog guilds = [] := by
  induction guilds with
  | nil => rfl
  | cons g gs ih =>
      simp only [RoleSync.guildLoop]
      rw [if_neg (h g (by simp))]
      exact ih fun x hx => h x (by simp [hx])

/-- Claim C10: both full-guild sync triggers run the same loop, which calls
the sync for at most one guild, makes no call when no guild matches, and
stops at the first guild whose id matches the configured id. -/
theorem claim_C10_first_match_only (cog : Cog) (guilds : List Guild) :
    (RoleSync.on_ready_calls cog guilds = RoleSync.guildLoop cog guilds ∧
      RoleSync.periodic_role_sync_calls cog guilds = RoleSync.guildLoop cog guilds) ∧
    (RoleSync.guildLoop cog guilds).length ≤ 1 ∧
    ((∀ g ∈ guilds, toString g.id ≠ cog.guildId) →
      RoleSync.guildLoop cog guilds = []) ∧
    (∀ (g : Guild) (gs : List Guild), toString g.id = cog.guildId →
      RoleSync.guildLoop cog (g :: gs) = [SyncRequest.fullGuildRoleSync g.id]) := by
  refine ⟨⟨rfl, rfl⟩, guildLoop_length_le_one cog guilds,
    guildLoop_eq_nil_of_no_match cog guilds, ?_⟩
  intro g gs h
  simp only [RoleSync.guildLoop]
  rw [if_pos h]

/-- Witness for C10 at a concrete non-matching guild list. -/
theorem claim_C10_first_match_only_witness :
    RoleSync.guildLoop ⟨"u", "k", "1", 9⟩ [⟨2, [], []⟩] = [] :=
  (claim_C10_first_match_only ⟨"u", "k", "1", 9⟩ [⟨2, [], []⟩]).2.2.1 (by decide)

/-- Counterexample to claim C4 as stated: on a 404 the command responds with
the very same message it gives for a timeout, so the caller-visible message
does not distinguish the no-account outcome from a genuine failure (only the
logs differ, which the caller does not see). -/
theorem claim_C4_counterexample :
    RoleSync.sync_my_roles_command ⟨"u", "k", "1", 99⟩ (some ⟨1, [], []⟩) true
        ⟨5, 1, "u", "d", none, none, [], none, false⟩
        (.response 404 ⟨0, []⟩ "") =
      .ok ("Could not sync your roles. Make sure you have an account on the team website.",
        []) ∧
    RoleSync.sync_my_roles_command ⟨"u", "k", "1", 99⟩ (some ⟨1, [], []⟩) true
        ⟨5, 1, "u", "d", none, none, [], none, false⟩ .timeout =
      .ok ("Could not sync your roles. Make sure you have an account on the team website.",
        [⟨.error, "User role sync timed out"⟩]) :=
  ⟨rfl, rfl⟩

/-- Claim C4 amended: a 404 from `/sync_user_roles/{id}` yields `None` with
no log record — so nothing is logged, but the value is the same `None` every
failure yields — and the manually triggered command then responds with the
same generic could-not-sync message it gives for a timeout; the message
mentions the account requirement but does not distinguish the two
outcomes. -/
theorem claim_C4_not_linked_silent (cog : Cog) (m : MemberSnapshot)
    (b : UserRolesResult) (t : String) (g : Guild)
    (hg : toString g.id = cog.guildId) :
    RoleSync.sync_user_roles cog m (.response 404 b t) = .ok (none, []) ∧
    RoleSync.sync_my_roles_command cog (some g) true m (.response 404 b t) =
      .ok ("Could not sync your roles. Make sure you have an account on the team website.",
        []) ∧
    RoleSync.sync_my_roles_command cog (some g) true m .timeout =
      .ok ("Could not sync your roles. Make sure you have an account on the team website.",
        [⟨.error, "User role sync timed out"⟩]) := by
  have h404 : RoleSync.sync_user_roles cog m (.response 404 b t) = .ok (none, []) := by
    simp [RoleSync.sync_user_roles, HttpOutcome.post]
  have htime : RoleSync.sync_user_roles cog m .timeout =
      .ok (none, [⟨.error, "User role sync timed out"⟩]) := rfl
  refine ⟨h404, ?_, ?_⟩
  · rw [RoleSync.sync_my_roles_command]
    simp only [if_neg (not_not_intro hg), h404]
    rfl
  · rw [RoleSync.sync_my_roles_command]
    simp only [if_neg (not_not_intro hg), htime]
    rfl

/-- Witness for the amended C4 at a concrete member and guild. -/
theorem claim_C4_not_linked_silent_witness :
    RoleSync.sync_user_roles ⟨"u", "k", "1", 9⟩
      ⟨5, 1, "u", "d", none, none, [], none, false⟩
      (.response 404 ⟨0, []⟩ "x") = .ok (none, []) :=
  (claim_C4_not_linked_silent ⟨"u", "k", "1", 9⟩
    ⟨5, 1, "u", "d", none, none, [], none, false⟩ ⟨0, []⟩ "x" ⟨1, [], []⟩
    (by decide)).1

/-- Counterexample to claim C1 as stated: the event loop admits the schedule
in which task 0 and task 1 — two full-guild sync requests admitted in the
same window, e.g. a periodic tick and a role-create event — both issue their
POST to `/sync_guild_roles` before either response arrives.  After that
prefix two remote calls are simultaneously in flight, and the whole schedule
performs two remote calls, not one. -/
theorem claim_C1_counterexample :
    Loop.validSchedule 2
        [(0, .post), (1, .post), (0, .resume), (1, .resume)] = true ∧
    Loop.inFlightCount 2
        ([(0, .post), (1, .post), (0, .resume), (1, .resume)].take 2) = 2 ∧
    Loop.postCount [(0, .post), (1, .post), (0, .resume), (1, .resume)] = 2 := by
  decide

/-- Claim C1 amended: the cog has no `in_progress` flag and no mutual
exclusion — in every admissible schedule each admitted full-guild sync
request performs exactly one remote call of its own (so n admitted requests
perform n calls, not one), and there is an admissible schedule of two
requests in which both calls are simultaneously in flight. -/
theorem claim_C1_no_mutual_exclusion :
    (∀ (n t : Nat) (sched : List (Nat × Loop.Step)),
      Loop.validSchedule n sched = true → t < n →
      (Loop.proj t sched).count Loop.Step.post = 1) ∧
    (∃ sched, Loop.validSchedule 2 sched = true ∧
      Loop.inFlightCount 2 (sched.take 2) = 2) := by
  constructor
  · intro n t sched h ht
    rw [Loop.validSchedule, Bool.and_eq_true] at h
    have h2 := List.all_eq_true.mp h.2 t (List.mem_range.mpr ht)
    rw [beq_iff_eq] at h2
    rw [h2]
    decide
  · exact ⟨[(0, .post), (1, .post), (0, .resume), (1, .resume)], by decide⟩

/-- Witness for the amended C1 at the concrete two-task schedule. -/
theorem claim_C1_no_mutual_exclusion_witness :
    (Loop.proj 0
      [(0, .post), (1, .post), (0, .resume), (1, .resume)]).count Loop.Step.post = 1 :=
  claim_C1_no_mutual_exclusion.1 2 0
    [(0, .post), (1, .post), (0, .resume), (1, .resume)] (by decide) (by decide)

/-- One scheduler transition preserves the timer invariant. -/
theorem sched_step_inv {s s' : Sched.State} (e : Sched.Event)
    (hs : Sched.Inv s) (h : Sched.step s e = some s') : Sched.Inv s' := by
  obtain ⟨h1, h2, h3⟩ := hs
  cases e with
  | readyEvent =>
      rw [Sched.step] at h
      split at h
      · cases h; exact ⟨h1, h2, h3⟩
      · cases h
        refine ⟨?_, fun _ => rfl, ?_⟩
        · by_cases h0 : s.timers = 0
          · simp [h0]
          · simp only [if_neg h0]
            omega
        · intro hu; simp at hu; simp_all
  | tickStart =>
      rw [Sched.step] at h
      split at h
      · cases h; exact ⟨h1, h2, h3⟩
      · cases h
  | tickEnd =>
      rw [Sched.step] at h
      split at h
      · cases h; exact ⟨h1, h2, h3⟩
      · cases h
  | unload =>
      rw [Sched.step] at h
      split at h
      · cases h
      · cases h
        exact ⟨Nat.zero_le 1, fun hc => by simp at hc, fun _ => rfl⟩

/-- Every state reachable from an invariant-satisfying state satisfies the
timer invariant. -/
theorem sched_foldl_inv :
    ∀ (evs : List Sched.Event) (s0 s : Sched.State), Sched.Inv s0 →
      List.foldlM Sched.step s0 evs = some s → Sched.Inv s := by
  intro evs
  induction evs with
  | nil => intro s0 s h0 h; cases h; exact h0
  | cons e evs ih =>
      intro s0 s h0 h
      have hstep : List.foldlM Sched.step s0 (e :: evs) =
          (Sched.step s0 e).bind fun s1 => List.foldlM Sched.step s1 evs := rfl
      rw [hstep] at h
      cases he : Sched.step s0 e with
      | none => rw [he] at h; cases h
      | some s1 =>
          rw [he] at h
          exact ih s1 s (sched_step_inv e h0 he) h

/-- Claim C7: in every admissible event sequence the periodic timer exists
at most once and only after the bot reported ready; after the cog is
unloaded no timer remains and a tick can no longer start; a tick can never
start before the bot is ready; and an in-flight tick can always run to its
end, also after unload. -/
theorem claim_C7_scheduler_lifecycle :
    (∀ (evs : List Sched.Event) (s : Sched.State), Sched.run evs = some s →
      s.timers ≤ 1 ∧ (1 ≤ s.timers → s.ready = true) ∧
        (s.unloaded = true → s.timers = 0 ∧ Sched.step s .tickStart = none)) ∧
    (∀ s : Sched.State, s.ready = false → Sched.step s .tickStart = none) ∧
    (∀ s : Sched.State, s.inTick = true →
      Sched.step s .tickEnd = some { s with inTick := false }) := by
  refine ⟨?_, ?_, ?_⟩
  · intro evs s h
    have hinv := sched_foldl_inv evs Sched.init s
      ⟨by decide, by intro h'; simp [Sched.init] at h',
        by intro h'; simp [Sched.init] at h'⟩ h
    obtain ⟨h1, h2, h3⟩ := hinv
    refine ⟨h1, h2, fun hu => ⟨h3 hu, ?_⟩⟩
    rw [Sched.step, if_neg]
    intro hc
    rw [h3 hu] at hc
    omega
  · intro s hs
    rw [Sched.step, if_neg]
    intro hc
    rw [hs] at hc
    exact Bool.false_ne_true hc.2.1
  · intro s hs
    rw [Sched.step, if_pos hs]

/-- Witness for C7 on the concrete trace ready-tick-tick end-unload. -/
theorem claim_C7_scheduler_lifecycle_witness :
    (⟨true, 0, false, true⟩ : Sched.State).timers ≤ 1 :=
  (claim_C7_scheduler_lifecycle.1
    [.readyEvent, .tickStart, .tickEnd, .unload] ⟨true, 0, false, true⟩
    (by decide)).1

end RaceReady
